import Mathlib

set_option linter.unusedVariables false

/-!
Shallow embedding of `TaskProgressMonitor.py` (class `TaskProgressMonitor` and
the renderable `TailText`).

Modelling conventions:
  * The monitor object's attributes become fields of `MonitorState`.  The
    internal progress counters `_overall_completed` (a Python float built by
    repeated float division/addition) are modelled over `ℚ`, i.e. exact
    arithmetic; `_overall_total`, `_subtask_total`, `_subtask_completed` are
    Python ints and become `ℤ`.
  * `self.overall_task` / `self.subtask` hold task ids returned by
    `rich.progress.Progress.add_task`.  `rich` allocates ids `0, 1, 2, ...`
    in creation order, which we model with the `nextTaskId` counter.  The
    Python truthiness tests `if self.overall_task:` / `if self.subtask:` are
    `taskTruthy` (`None` and id `0` are both falsy).
  * The log file handle `self._log_file` becomes `logOpen : Bool` plus the
    accumulated file contents `fileLines` (the file is opened in append
    mode, so contents survive a stop/start cycle).
  * Calls into the `rich` display layer are modelled only where their result
    feeds back into the monitor's own control flow or raises: `add_task`
    returns the next id, and `Progress.update(task_id, ...)` raises a lookup
    error (`MonitorError.keyError`) when the given task id is `None`
    (`self._tasks[None]` fails).  Pure repainting has no state effect.
  * `datetime.now()` and the elapsed-time string are environment inputs and
    are passed to the operations as explicit string arguments.
  * A Python method that can raise is a function returning
    `MonitorState × Option MonitorError`: the returned state is the object
    state at the moment the method returns or raises (mutations performed
    before a raise are kept, exactly as in the source).
-/

/-- Errors raised by the monitor's methods.  `notStarted` is the
`RuntimeError("Monitor must be started first")`, `invalidArgument` the
`ValueError("total_tasks must be a positive integer")`, `keyError` the lookup
error raised by `rich` when `Progress.update` is given a missing task id, and
`zeroDivision` the `ZeroDivisionError` of `step / self._subtask_total`. -/
inductive MonitorError where
  | notStarted
  | invalidArgument
  | keyError
  | zeroDivision
  deriving Repr, DecidableEq

/-- State of a `TaskProgressMonitor` object. -/
structure MonitorState where
  liveStarted : Bool
  logOpen : Bool
  fileLines : List String
  overallTask : Option ℕ
  subtask : Option ℕ
  nextTaskId : ℕ
  overallTotal : ℤ
  overallCompleted : ℚ
  subtaskTotal : ℤ
  subtaskCompleted : ℤ
  staticContent : List String
  maxStaticLines : ℕ
  liveInfo : String
  startTime : Option String
  endTime : Option String
  deriving Repr, DecidableEq

/-- State built by `TaskProgressMonitor.__init__` ( `max_static_lines` is the
constructor argument, default 1000). -/
def initState (max_static_lines : ℕ) : MonitorState :=
  { liveStarted := false
    logOpen := false
    fileLines := []
    overallTask := none
    subtask := none
    nextTaskId := 0
    overallTotal := 0
    overallCompleted := 0
    subtaskTotal := 0
    subtaskCompleted := 0
    staticContent := []
    maxStaticLines := max_static_lines
    liveInfo := "Waiting for first update..."
    startTime := none
    endTime := none }

/-- Python truthiness of an optional `rich` task id (`if self.overall_task:`):
`None` is falsy and so is the integer id `0`. -/
def taskTruthy : Option ℕ → Bool
  | none => false
  | some i => i != 0

/-- Method `start`.  No-op when already started; otherwise opens the log file
in append mode, writes the start marker, starts the live display and records
the start time.  `now` stands for `datetime.now()`. -/
def start (now : String) (s : MonitorState) : MonitorState :=
  if s.liveStarted then s
  else
    { s with
      logOpen := true
      fileLines := s.fileLines ++
        ["================= Log started at " ++ now ++ " ================="]
      liveStarted := true
      startTime := some now }

/-- The block `if self.subtask: self.progress.remove_task(self.subtask);
self.subtask = None` of method `complete`: the handle is cleared only when
truthy, so a handle whose task id is `0` is left in place. -/
def completeRemoveSubtask (s : MonitorState) : MonitorState :=
  if taskTruthy s.subtask then { s with subtask := none } else s

/-- The block `if self.overall_task: ...; self.overall_task = None` of method
`complete`, with the same truthiness caveat for task id `0`. -/
def completeRemoveOverall (s : MonitorState) : MonitorState :=
  if taskTruthy s.overallTask then { s with overallTask := none } else s

/-- Method `complete`.  No-op when not started; otherwise sets the live-info
panel to the finished message and removes the subtask and overall-task
progress bars (only truthy handles, see the two blocks above). -/
def complete (s : MonitorState) : MonitorState :=
  if s.liveStarted = false then s
  else
    completeRemoveOverall (completeRemoveSubtask
      { s with liveInfo := "[bold green]All Tasks Finished![/]" })

/-- The block `if self._log_file: ...` of method `stop`: writes the completion
and elapsed-time markers and closes the log file. -/
def stopCloseLog (now elapsed : String) (s : MonitorState) : MonitorState :=
  if s.logOpen then
    { s with
      fileLines := s.fileLines ++
        ["================= Task completed at " ++ now ++ " =================",
         "================= Time Elapse: " ++ elapsed ++ " ================="]
      logOpen := false }
  else s

/-- Method `stop`.  No-op when not started; otherwise runs `complete`, records
the end time, writes the completion and elapsed-time markers and closes the
log file, prints the terminal summary (no state effect) and clears
`_live_started`.  `now` stands for `datetime.now()` and `elapsed` for
`str(self.end_time - self.start_time)`; the `success` flag only selects the
printed summary line. -/
def stop (success : Bool) (now elapsed : String) (s : MonitorState) : MonitorState :=
  if s.liveStarted = false then s
  else
    { stopCloseLog now elapsed { complete s with endTime := some now } with
        liveStarted := false }

/-- Method `init_overall_task`.  Raises when not started; otherwise removes
the previous overall bar (display only), adds a new task (receiving the next
`rich` task id) and resets the overall counters. -/
def init_overall_task (title : String) (total_phases : ℤ) (start_phase : ℤ)
    (s : MonitorState) : MonitorState × Option MonitorError :=
  if s.liveStarted = false then (s, some MonitorError.notStarted)
  else
    ({ s with
        overallTask := some s.nextTaskId
        nextTaskId := s.nextTaskId + 1
        overallTotal := total_phases
        overallCompleted := (start_phase : ℚ) }, none)

/-- Method `init_subtask`.  Raises when not started, then rejects
`total_tasks <= 0`; otherwise removes the previous subtask bar (display
only), adds a new task and resets the subtask counters. -/
def init_subtask (title : String) (total_tasks : ℤ) (s : MonitorState) :
    MonitorState × Option MonitorError :=
  if s.liveStarted = false then (s, some MonitorError.notStarted)
  else if total_tasks ≤ 0 then (s, some MonitorError.invalidArgument)
  else
    ({ s with
        subtask := some s.nextTaskId
        nextTaskId := s.nextTaskId + 1
        subtaskTotal := total_tasks
        subtaskCompleted := 0 }, none)

/-- Method `update_progress`.  Raises when not started.  Then, in source
order: `self.progress.update(self.subtask, ...)` fails with a lookup error
when no subtask handle exists; `step / self._subtask_total` fails when the
stored total is `0`; `self.progress.update(self.overall_task, ...)` fails
when no overall handle exists; finally the internal counters are advanced,
the overall one by the fractional slice `step / total`. -/
def update_progress (step : ℤ) (info : String) (s : MonitorState) :
    MonitorState × Option MonitorError :=
  if s.liveStarted = false then (s, some MonitorError.notStarted)
  else if s.subtask = none then (s, some MonitorError.keyError)
  else if s.subtaskTotal = 0 then (s, some MonitorError.zeroDivision)
  else if s.overallTask = none then (s, some MonitorError.keyError)
  else
    ({ s with
        subtaskCompleted := s.subtaskCompleted + step
        overallCompleted := s.overallCompleted + (step : ℚ) / (s.subtaskTotal : ℚ) }, none)

/-- Rounding of `q` to the nearest integer, ties to even — the rounding used
by Python's fixed-point formatting, here over exact rationals. -/
def roundHalfEven (q : ℚ) : ℤ :=
  let f := ⌊q⌋
  let r := q - (f : ℚ)
  if r < 1/2 then f
  else if 1/2 < r then f + 1
  else if f % 2 = 0 then f else f + 1

/-- Rendering of `f"{x:.2f}"` over exact rationals: two decimal places. -/
def fmt2 (q : ℚ) : String :=
  let n := roundHalfEven (q * 100)
  let a := n.natAbs
  let ip := a / 100
  let fp := a % 100
  (if n < 0 then "-" else "") ++ toString ip ++ "." ++
    (if fp < 10 then "0" else "") ++ toString fp

/-- The line written by `_log_to_file`:
`f"{timestamp} | {task_progress} | {subtask_progress} | {message}"` with
`task_progress = f"{self._overall_completed:.2f}/{self._overall_total}"` and
`subtask_progress = f"{self._subtask_completed}/{self._subtask_total}"`. -/
def logEntryLine (timestamp : String) (s : MonitorState) (message : String) : String :=
  timestamp ++ " | " ++ fmt2 s.overallCompleted ++ "/" ++ toString s.overallTotal
    ++ " | " ++ toString s.subtaskCompleted ++ "/" ++ toString s.subtaskTotal
    ++ " | " ++ message

/-- Method `_log_to_file`.  Returns silently (total function, no error
component) when the log file is not open; otherwise appends exactly one
formatted line.  `timestamp` stands for
`datetime.now().isoformat(timespec='seconds')`. -/
def log_to_file (timestamp message : String) (s : MonitorState) : MonitorState :=
  if s.logOpen = false then s
  else { s with fileLines := s.fileLines ++ [logEntryLine timestamp s message] }

/-- Method `update_live_info`.  Raises when not started; otherwise replaces
the live panel content and forwards the line to `_log_to_file`. -/
def update_live_info (now info : String) (s : MonitorState) :
    MonitorState × Option MonitorError :=
  if s.liveStarted = false then (s, some MonitorError.notStarted)
  else (log_to_file now info { s with liveInfo := info }, none)

/-- Semantics of `collections.deque(maxlen)` under `append`: the new element
is appended and the oldest entries are dropped until the length is within
`maxlen` (at most one entry is ever dropped when the invariant held). -/
def dequePush (maxlen : ℕ) (xs : List String) (x : String) : List String :=
  let ys := xs ++ [x]
  ys.drop (ys.length - maxlen)

/-- Method `update_static_info`.  Raises when not started; otherwise appends
to the bounded static buffer, repaints the static panel (display only) and
forwards the line to `_log_to_file`. -/
def update_static_info (now info : String) (s : MonitorState) :
    MonitorState × Option MonitorError :=
  if s.liveStarted = false then (s, some MonitorError.notStarted)
  else
    (log_to_file now info
      { s with staticContent := dequePush s.maxStaticLines s.staticContent info }, none)

/-- The body of `TailText.__rich_console__`: with `max_lines =
max(1, options.height)`, yield `list(self.text_deque)[-max_lines:]`, i.e. the
last `max_lines` entries of the buffer (all of them when fewer exist),
order preserved. -/
def tailRender (text_deque : List String) (height : ℤ) : List String :=
  let max_lines := max 1 height
  text_deque.drop (text_deque.length - max_lines.toNat)

/-- A public operation on the monitor, for reasoning about call sequences.
Timestamps and the elapsed string are carried as data. -/
inductive Op where
  | startOp (now : String)
  | stopOp (success : Bool) (now elapsed : String)
  | initOverall (title : String) (total_phases : ℤ) (start_phase : ℤ)
  | initSubtask (title : String) (total_tasks : ℤ)
  | updateProgress (step : ℤ) (info : String)
  | updateLiveInfo (now info : String)
  | updateStaticInfo (now info : String)
  | completeOp
  deriving Repr, DecidableEq

/-- One public call.  For the fallible methods the resulting object state is
kept whether or not the call raised (a raise leaves the object exactly as it
was at the raise point, and the caller may continue using it). -/
def stepOp (s : MonitorState) (op : Op) : MonitorState :=
  match op with
  | Op.startOp now => start now s
  | Op.stopOp success now elapsed => stop success now elapsed s
  | Op.initOverall t n p => (init_overall_task t n p s).1
  | Op.initSubtask t n => (init_subtask t n s).1
  | Op.updateProgress k i => (update_progress k i s).1
  | Op.updateLiveInfo now i => (update_live_info now i s).1
  | Op.updateStaticInfo now i => (update_static_info now i s).1
  | Op.completeOp => complete s

/-- A sequence of public calls. -/
def run (s : MonitorState) (ops : List Op) : MonitorState :=
  ops.foldl stepOp s

/-- Invariant relating the subtask handle and the stored subtask total: a
handle only ever exists for a subtask whose total was accepted as positive. -/
def SubInv (s : MonitorState) : Prop :=
  s.subtask ≠ none → 0 < s.subtaskTotal

/-! Helper lemmas. -/

theorem run_nil (s : MonitorState) : run s [] = s := rfl

theorem run_cons (s : MonitorState) (op : Op) (ops : List Op) :
    run s (op :: ops) = run (stepOp s op) ops := rfl

theorem log_to_file_liveStarted (t m : String) (s : MonitorState) :
    (log_to_file t m s).liveStarted = s.liveStarted := by
  unfold log_to_file; split <;> rfl

theorem log_to_file_subtask (t m : String) (s : MonitorState) :
    (log_to_file t m s).subtask = s.subtask := by
  unfold log_to_file; split <;> rfl

theorem log_to_file_subtaskTotal (t m : String) (s : MonitorState) :
    (log_to_file t m s).subtaskTotal = s.subtaskTotal := by
  unfold log_to_file; split <;> rfl

theorem log_to_file_subtaskCompleted (t m : String) (s : MonitorState) :
    (log_to_file t m s).subtaskCompleted = s.subtaskCompleted := by
  unfold log_to_file; split <;> rfl

theorem log_to_file_overallTask (t m : String) (s : MonitorState) :
    (log_to_file t m s).overallTask = s.overallTask := by
  unfold log_to_file; split <;> rfl

theorem log_to_file_overallCompleted (t m : String) (s : MonitorState) :
    (log_to_file t m s).overallCompleted = s.overallCompleted := by
  unfold log_to_file; split <;> rfl

theorem log_to_file_overallTotal (t m : String) (s : MonitorState) :
    (log_to_file t m s).overallTotal = s.overallTotal := by
  unfold log_to_file; split <;> rfl

theorem log_to_file_staticContent (t m : String) (s : MonitorState) :
    (log_to_file t m s).staticContent = s.staticContent := by
  unfold log_to_file; split <;> rfl

theorem log_to_file_maxStaticLines (t m : String) (s : MonitorState) :
    (log_to_file t m s).maxStaticLines = s.maxStaticLines := by
  unfold log_to_file; split <;> rfl

theorem complete_subtaskTotal (s : MonitorState) :
    (complete s).subtaskTotal = s.subtaskTotal := by
  unfold complete completeRemoveOverall completeRemoveSubtask
  split_ifs <;> rfl

theorem complete_subtaskCompleted (s : MonitorState) :
    (complete s).subtaskCompleted = s.subtaskCompleted := by
  unfold complete completeRemoveOverall completeRemoveSubtask
  split_ifs <;> rfl

theorem complete_overallTotal (s : MonitorState) :
    (complete s).overallTotal = s.overallTotal := by
  unfold complete completeRemoveOverall completeRemoveSubtask
  split_ifs <;> rfl

theorem complete_overallCompleted (s : MonitorState) :
    (complete s).overallCompleted = s.overallCompleted := by
  unfold complete completeRemoveOverall completeRemoveSubtask
  split_ifs <;> rfl

theorem complete_subtask_or (s : MonitorState) :
    (complete s).subtask = s.subtask ∨ (complete s).subtask = none := by
  unfold complete completeRemoveOverall completeRemoveSubtask
  split_ifs <;> simp

theorem stop_subtaskTotal (b : Bool) (n e : String) (s : MonitorState) :
    (stop b n e s).subtaskTotal = s.subtaskTotal := by
  unfold stop stopCloseLog
  split_ifs <;> simp [complete_subtaskTotal]

theorem stop_subtask_or (b : Bool) (n e : String) (s : MonitorState) :
    (stop b n e s).subtask = s.subtask ∨ (stop b n e s).subtask = none := by
  unfold stop stopCloseLog
  rcases complete_subtask_or s with h | h <;> split_ifs <;> simp [h]

theorem start_subtaskTotal (n : String) (s : MonitorState) :
    (start n s).subtaskTotal = s.subtaskTotal := by
  unfold start; split <;> rfl

theorem start_subtask (n : String) (s : MonitorState) :
    (start n s).subtask = s.subtask := by
  unfold start; split <;> rfl

theorem stepOp_subInv (s : MonitorState) (op : Op) (h : SubInv s) :
    SubInv (stepOp s op) := by
  cases op with
  | startOp now =>
    intro hs
    rw [stepOp, start_subtaskTotal]
    exact h (by rwa [stepOp, start_subtask] at hs)
  | stopOp b n e =>
    intro hs
    rw [stepOp, stop_subtaskTotal]
    rcases stop_subtask_or b n e s with h2 | h2
    · exact h (by rwa [stepOp, h2] at hs)
    · rw [stepOp] at hs; exact absurd h2 hs
  | initOverall t n p =>
    intro hs
    simp only [stepOp, init_overall_task] at hs ⊢
    split_ifs at hs ⊢ <;> simp_all [SubInv]
  | initSubtask t n =>
    intro hs
    simp only [stepOp, init_subtask] at hs ⊢
    split_ifs at hs ⊢ with h1 h2
    · exact h hs
    · exact h hs
    · simpa using by omega
  | updateProgress k i =>
    intro hs
    simp only [stepOp, update_progress] at hs ⊢
    split_ifs at hs ⊢ <;> simp_all [SubInv]
  | updateLiveInfo n i =>
    intro hs
    simp only [stepOp, update_live_info] at hs ⊢
    split_ifs at hs ⊢ with h1
    · exact h hs
    · rw [log_to_file_subtaskTotal]
      rw [log_to_file_subtask] at hs
      exact h hs
  | updateStaticInfo n i =>
    intro hs
    simp only [stepOp, update_static_info] at hs ⊢
    split_ifs at hs ⊢ with h1
    · exact h hs
    · rw [log_to_file_subtaskTotal]
      rw [log_to_file_subtask] at hs
      exact h hs
  | completeOp =>
    intro hs
    rw [stepOp, complete_subtaskTotal]
    rcases complete_subtask_or s with h2 | h2
    · exact h (by rwa [stepOp, h2] at hs)
    · rw [stepOp] at hs; exact absurd h2 hs

theorem run_subInv (ops : List Op) :
    ∀ s : MonitorState, SubInv s → SubInv (run s ops) := by
  induction ops with
  | nil => intro s h; exact h
  | cons op ops ih =>
    intro s h
    rw [run_cons]
    exact ih _ (stepOp_subInv s op h)

/-! Claim theorems. -/

/-- C2 (counterexample): the claim says `update_progress` can never be
reached while the stored subtask total is `0`.  On a freshly started monitor
(no `init_subtask` yet) `update_progress` is invoked with the stored total
still `0`; the call fails at the display update on the missing subtask handle
(in the source a lookup error, raised before the division), which the
`InvalidArgumentError` check at `init_subtask` does nothing to prevent. -/
theorem update_progress_reached_with_zero_total :
    (start "t0" (initState 1000)).liveStarted = true ∧
    (start "t0" (initState 1000)).subtaskTotal = 0 ∧
    (update_progress 1 "" (start "t0" (initState 1000))).2 =
      some MonitorError.keyError := by
  refine ⟨rfl, rfl, ?_⟩
  simp [update_progress, start, initState]

/-- C2 (amended): along every sequence of public operations from a fresh
monitor, the division `step / self._subtask_total` in `update_progress`
never divides by zero: a stored subtask handle only exists with a positive
stored total (`init_subtask` rejects non-positive totals), and without a
handle the call fails before the division is evaluated. -/
theorem update_progress_never_divides_by_zero (cap : ℕ) (ops : List Op)
    (k : ℤ) (i : String) :
    (update_progress k i (run (initState cap) ops)).2 ≠
      some MonitorError.zeroDivision := by
  have hinv : SubInv (run (initState cap) ops) :=
    run_subInv ops (initState cap) (by intro h; simp [initState] at h)
  unfold update_progress
  split_ifs with h1 h2 h3 h4 <;> simp
  exact absurd (hinv h2) (by omega)

/-- C3 (counterexample): the claim says the `Stopped` state is terminal and
no later `start()` returns the session to `Started`.  Concretely, after
`start(); stop(); start()` the session is live again: `stop` only clears
`_live_started`, and `start` runs in full from that state. -/
theorem restart_reaches_started :
    (start "t2" (stop true "t1" "0:00:01" (start "t1" (initState 4)))).liveStarted
      = true := by
  simp [start, stop, stopCloseLog, complete, completeRemoveSubtask,
    completeRemoveOverall, taskTruthy, initState]

/-- C3 (amended): the observable lifecycle state is the single flag
`_live_started`, so `NotStarted` and `Stopped` coincide.  `stop` always
leaves the session non-started, a `start` after any `stop` returns the
session to `Started` (restart is supported by the code), and calling `start`
while already `Started` is a no-op. -/
theorem lifecycle_two_state (s : MonitorState) (b : Bool)
    (ts el ts2 : String) :
    (stop b ts el s).liveStarted = false ∧
    (start ts2 (stop b ts el s)).liveStarted = true ∧
    (s.liveStarted = true → start ts2 s = s) := by
  have h1 : (stop b ts el s).liveStarted = false := by
    unfold stop
    split_ifs with h
    · exact h
    · rfl
  refine ⟨h1, ?_, ?_⟩
  · unfold start
    rw [if_neg (by simp [h1])]
  · intro h
    unfold start
    rw [if_pos h]

/-- C3 (witness for the amended theorem). -/
theorem lifecycle_two_state_witness :
    start "t2" (start "t1" (initState 4)) = start "t1" (initState 4) :=
  (lifecycle_two_state (start "t1" (initState 4)) true "x" "y" "t2").2.2 rfl

/-- C6: every update method (`init_overall_task`, `init_subtask`,
`update_progress`, `update_live_info`, `update_static_info`) raises the
not-started error whenever the session is not in the started state, and
`init_subtask` raises the invalid-argument error for every
`total_tasks <= 0` on a started session. -/
theorem updates_require_started (s : MonitorState) (t : String) (n p k : ℤ)
    (ts i : String) :
    (s.liveStarted = false →
      (init_overall_task t n p s).2 = some MonitorError.notStarted ∧
      (init_subtask t n s).2 = some MonitorError.notStarted ∧
      (update_progress k i s).2 = some MonitorError.notStarted ∧
      (update_live_info ts i s).2 = some MonitorError.notStarted ∧
      (update_static_info ts i s).2 = some MonitorError.notStarted) ∧
    (s.liveStarted = true → n ≤ 0 →
      (init_subtask t n s).2 = some MonitorError.invalidArgument) := by
  constructor
  · intro h
    simp [init_overall_task, init_subtask, update_progress, update_live_info,
      update_static_info, h]
  · intro h hn
    simp [init_subtask, h, hn]

/-- C6 (witness): a fresh monitor rejects `update_progress`, and a started
monitor rejects `init_subtask` with total `0`. -/
theorem updates_require_started_witness :
    (update_progress 1 "x" (initState 5)).2 = some MonitorError.notStarted ∧
    (init_subtask "A" 0 (start "t" (initState 5))).2 =
      some MonitorError.invalidArgument :=
  ⟨((updates_require_started (initState 5) "A" 0 0 1 "t" "x").1 rfl).2.2.1,
   (updates_require_started (start "t" (initState 5)) "A" 0 0 1 "t" "x").2 rfl
     (by norm_num)⟩

/-- C8: a `_log_to_file` call is a silent no-op (it is a total function and
returns the state unchanged) whenever the log sink is not open, and whenever
the sink is open it appends exactly one line
`<timestamp> | <overall completed to 2 decimals>/<overall total> |
<subtask completed>/<subtask total> | <message>`. -/
theorem log_entry_format (ts msg : String) (s : MonitorState) :
    (s.logOpen = false → log_to_file ts msg s = s) ∧
    (s.logOpen = true →
      (log_to_file ts msg s).fileLines = s.fileLines ++
        [ts ++ " | " ++ fmt2 s.overallCompleted ++ "/" ++
          toString s.overallTotal ++ " | " ++ toString s.subtaskCompleted ++
          "/" ++ toString s.subtaskTotal ++ " | " ++ msg]) := by
  constructor
  · intro h
    simp [log_to_file, h]
  · intro h
    simp [log_to_file, logEntryLine, h]

/-- C8 (witness): on a closed sink the write is the identity; on a started
monitor the formatted line is appended. -/
theorem log_entry_format_witness :
    log_to_file "T" "hello" (initState 7) = initState 7 ∧
    (log_to_file "T" "hello" (start "t0" (initState 7))).fileLines =
      (start "t0" (initState 7)).fileLines ++
        ["T" ++ " | " ++ fmt2 (start "t0" (initState 7)).overallCompleted ++
          "/" ++ toString (start "t0" (initState 7)).overallTotal ++ " | " ++
          toString (start "t0" (initState 7)).subtaskCompleted ++ "/" ++
          toString (start "t0" (initState 7)).subtaskTotal ++ " | " ++
          "hello"] :=
  ⟨(log_entry_format "T" "hello" (initState 7)).1 rfl,
   (log_entry_format "T" "hello" (start "t0" (initState 7))).2 rfl⟩

/-- C9: when `init_subtask` raises the invalid-argument error (because
`total_tasks <= 0`), it raises before performing any mutation: the whole
monitor state — subtask handle, stored totals and counters, overall state —
is exactly as it was before the call. -/
theorem init_subtask_invalid_is_atomic (t : String) (n : ℤ) (s : MonitorState)
    (h : (init_subtask t n s).2 = some MonitorError.invalidArgument) :
    (init_subtask t n s).1 = s := by
  unfold init_subtask at h ⊢
  split_ifs at h ⊢ <;> simp_all

/-- C9 (witness): rejecting `init_subtask("A", 0)` leaves the started state
unchanged. -/
theorem init_subtask_invalid_is_atomic_witness :
    (init_subtask "A" 0 (start "t" (initState 3))).1 = start "t" (initState 3) :=
  init_subtask_invalid_is_atomic "A" 0 (start "t" (initState 3)) rfl

/-- C5: the tail renderer is a pure function of `(snapshot, height)`: its
output is a suffix of the snapshot (order preserved) of length
`min (max 1 height) (length snapshot)` — i.e. exactly the last
`max(1, height)` lines, or all of them when fewer exist; two calls with the
same inputs are identical, and when the height is at least the snapshot
length the output is the whole snapshot. -/
theorem tailRender_last_lines (S : List String) (H : ℤ) :
    (∃ p, S = p ++ tailRender S H) ∧
    (tailRender S H).length = min (max 1 H).toNat S.length ∧
    tailRender S H = tailRender S H ∧
    ((S.length : ℤ) ≤ H → tailRender S H = S) := by
  refine ⟨⟨S.take (S.length - (max 1 H).toNat), ?_⟩, ?_, rfl, ?_⟩
  · exact (List.take_append_drop _ S).symm
  · simp [tailRender]
    omega
  · intro h
    have h0 : S.length - (max 1 H).toNat = 0 := by omega
    simp [tailRender, h0]

/-- C5 (witness): a viewport taller than the buffer shows the whole buffer. -/
theorem tailRender_last_lines_witness :
    tailRender ["a", "b", "c"] 5 = ["a", "b", "c"] :=
  (tailRender_last_lines ["a", "b", "c"] 5).2.2.2 (by norm_num)

theorem init_subtask_ok (t : String) (n : ℤ) (s0 s1 : MonitorState)
    (h : init_subtask t n s0 = (s1, none)) :
    s0.liveStarted = true ∧ 0 < n ∧
      s1 = { s0 with
              subtask := some s0.nextTaskId
              nextTaskId := s0.nextTaskId + 1
              subtaskTotal := n
              subtaskCompleted := 0 } := by
  unfold init_subtask at h
  split_ifs at h with h1 h2
  · exact absurd (congrArg Prod.snd h) (by simp)
  · exact absurd (congrArg Prod.snd h) (by simp)
  · exact ⟨by simpa using h1, by omega, (congrArg Prod.fst h).symm⟩

theorem run_updateProgress (N : ℤ) (hN : N ≠ 0) (ss : List ℤ) :
    ∀ s : MonitorState, s.liveStarted = true → s.subtask ≠ none →
      s.overallTask ≠ none → s.subtaskTotal = N →
      (run s (ss.map (fun k => Op.updateProgress k ""))).overallCompleted =
        s.overallCompleted + (ss.sum : ℚ) / (N : ℚ) := by
  induction ss with
  | nil =>
    intro s h1 h2 h3 h4
    simp [run_nil]
  | cons k ss ih =>
    intro s h1 h2 h3 h4
    rw [List.map_cons, run_cons]
    have hstep : stepOp s (Op.updateProgress k "") =
        { s with
            subtaskCompleted := s.subtaskCompleted + k
            overallCompleted :=
              s.overallCompleted + (k : ℚ) / (s.subtaskTotal : ℚ) } := by
      simp [stepOp, update_progress, h1, h2, h3, h4, hN]
    have ih2 := ih
      { s with
          subtaskCompleted := s.subtaskCompleted + k
          overallCompleted :=
            s.overallCompleted + (k : ℚ) / (s.subtaskTotal : ℚ) }
      h1 h2 h3 h4
    rw [hstep, ih2]
    dsimp only
    rw [h4, List.sum_cons]
    push_cast
    rw [add_div]
    ring

/-- C1: within a single active subtask of total `N` (freshly initialized by
a successful `init_subtask`, under an active overall task), any sequence of
`update_progress(step)` calls whose cumulative steps reach `N` increases the
overall completed counter by exactly `1`, regardless of `N`, with the
arithmetic taken over the rationals. -/
theorem subtask_steps_add_one_overall_unit (s0 s1 : MonitorState) (t : String)
    (N : ℤ) (ss : List ℤ)
    (hov : s0.overallTask ≠ none)
    (hinit : init_subtask t N s0 = (s1, none))
    (hsum : ss.sum = N) :
    (run s1 (ss.map (fun k => Op.updateProgress k ""))).overallCompleted =
      s1.overallCompleted + 1 := by
  obtain ⟨hl, hNpos, hs1⟩ := init_subtask_ok t N s0 s1 hinit
  have hN : N ≠ 0 := by omega
  have h := run_updateProgress N hN ss s1
    (by rw [hs1]; exact hl)
    (by rw [hs1]; simp)
    (by rw [hs1]; simpa using hov)
    (by rw [hs1])
  rw [h, hsum, div_self (by exact_mod_cast hN)]

/-- C1 (witness): a subtask of two steps, advanced twice by one, adds one
overall unit. -/
theorem subtask_steps_add_one_overall_unit_witness :
    (run ((init_subtask "A" 2
          ((init_overall_task "P" 3 0 (start "t" (initState 9))).1)).1)
        ([(1 : ℤ), 1].map (fun k => Op.updateProgress k ""))).overallCompleted =
      ((init_subtask "A" 2
          ((init_overall_task "P" 3 0 (start "t" (initState 9))).1)).1).overallCompleted
        + 1 :=
  subtask_steps_add_one_overall_unit
    ((init_overall_task "P" 3 0 (start "t" (initState 9))).1)
    ((init_subtask "A" 2
        ((init_overall_task "P" 3 0 (start "t" (initState 9))).1)).1)
    "A" 2 [1, 1] (by simp [init_overall_task, start, initState]) rfl rfl

theorem dequePush_length_le (C : ℕ) (xs : List String) (x : String) :
    (dequePush C xs x).length ≤ C := by
  simp [dequePush]
  omega

theorem foldl_dequePush (C : ℕ) (ys : List String) :
    ∀ xs : List String, xs.length ≤ C →
      List.foldl (dequePush C) xs ys = (xs ++ ys).drop ((xs ++ ys).length - C) := by
  induction ys with
  | nil =>
    intro xs h
    simp [Nat.sub_eq_zero_of_le h]
  | cons y ys ih =>
    intro xs h
    rw [List.foldl_cons, ih (dequePush C xs y) (dequePush_length_le C xs y)]
    have hd : dequePush C xs y = (xs ++ [y]).drop ((xs ++ [y]).length - C) := rfl
    rw [hd, ← List.drop_append_of_le_length (Nat.sub_le (xs ++ [y]).length C),
      List.drop_drop]
    have hl : ((xs ++ [y]).length - C) +
        (((xs ++ [y] ++ ys).drop ((xs ++ [y]).length - C)).length - C) =
        ((xs ++ [y] ++ ys).length - C) := by
      simp
      omega
    rw [hl, List.append_assoc, List.singleton_append]

theorem run_updateStaticInfo (ts : String) (infos : List String) :
    ∀ s : MonitorState, s.liveStarted = true →
      (run s (infos.map (Op.updateStaticInfo ts))).staticContent =
        List.foldl (dequePush s.maxStaticLines) s.staticContent infos := by
  induction infos with
  | nil => intro s h; simp [run_nil]
  | cons i infos ih =>
    intro s h
    rw [List.map_cons, run_cons, List.foldl_cons]
    have hstep : stepOp s (Op.updateStaticInfo ts i) =
        log_to_file ts i
          { s with staticContent := dequePush s.maxStaticLines s.staticContent i } := by
      simp [stepOp, update_static_info, h]
    have ih2 := ih (log_to_file ts i
        { s with staticContent := dequePush s.maxStaticLines s.staticContent i })
      (by rw [log_to_file_liveStarted]; exact h)
    rw [hstep, ih2, log_to_file_staticContent, log_to_file_maxStaticLines]

/-- C4: starting from a fresh monitor with history capacity `C`, pushing
`M > C` lines through `update_static_info` leaves the bounded history buffer
holding exactly the last `C` pushed lines, in their original relative order
(the dropped ones are exactly the oldest `M - C`). -/
theorem bounded_history_keeps_last (C : ℕ) (ts : String) (infos : List String)
    (hM : C < infos.length) :
    (run (start ts (initState C)) (infos.map (Op.updateStaticInfo ts))).staticContent =
      infos.drop (infos.length - C) ∧
    (infos.drop (infos.length - C)).length = C := by
  have h1 := run_updateStaticInfo ts infos (start ts (initState C)) rfl
  have h2 : (start ts (initState C)).staticContent = [] := rfl
  have h3 : (start ts (initState C)).maxStaticLines = C := rfl
  rw [h2, h3] at h1
  rw [h1, foldl_dequePush C infos [] (by simp)]
  refine ⟨by simp, ?_⟩
  simp
  omega

/-- C4 (witness): with capacity 3, pushing "a","b","c","d" leaves the buffer
snapshot equal to ["b","c","d"]. -/
theorem bounded_history_keeps_last_witness :
    (run (start "t" (initState 3))
        (["a", "b", "c", "d"].map (Op.updateStaticInfo "t"))).staticContent =
      ["b", "c", "d"] :=
  ((bounded_history_keeps_last 3 "t" ["a", "b", "c", "d"] (by norm_num)).1).trans rfl

/-- C7: the spec scenario.  After `start`, `init_overall_task("P", 2)`,
`init_subtask("A", 4)` and four unit `update_progress` calls, the overall
completed counter is exactly `1` and the subtask completed counter is `4`;
after a further `init_subtask("B", 2)` (which replaces the subtask and
resets its counter) and two unit `update_progress` calls, the overall
completed counter is exactly `2`. -/
theorem staged_progress_scenario :
    ((run (initState 1000)
        [Op.startOp "t", Op.initOverall "P" 2 0, Op.initSubtask "A" 4,
         Op.updateProgress 1 "", Op.updateProgress 1 "", Op.updateProgress 1 "",
         Op.updateProgress 1 ""]).overallCompleted = 1 ∧
      (run (initState 1000)
        [Op.startOp "t", Op.initOverall "P" 2 0, Op.initSubtask "A" 4,
         Op.updateProgress 1 "", Op.updateProgress 1 "", Op.updateProgress 1 "",
         Op.updateProgress 1 ""]).subtaskCompleted = 4) ∧
    (run (initState 1000)
        [Op.startOp "t", Op.initOverall "P" 2 0, Op.initSubtask "A" 4,
         Op.updateProgress 1 "", Op.updateProgress 1 "", Op.updateProgress 1 "",
         Op.updateProgress 1 "", Op.initSubtask "B" 2, Op.updateProgress 1 "",
         Op.updateProgress 1 ""]).overallCompleted = 2 := by
  refine ⟨⟨?_, ?_⟩, ?_⟩ <;>
    · simp [run, stepOp, start, init_overall_task, init_subtask, update_progress,
        initState]
      try norm_num

/-- C10 (evaluation at the failing input): after `start`,
`init_overall_task("P", 2)` (which receives `rich` task id `0`) and
`init_subtask("A", 4)` (task id `1`), calling `complete` clears the subtask
handle but leaves the overall handle in place (`if self.overall_task:` is
false for the falsy task id `0`), while all four internal progress counters
are unchanged. -/
theorem complete_keeps_counters_and_zero_id_handle :
    (let s3 := (init_subtask "A" 4
        ((init_overall_task "P" 2 0 (start "t" (initState 1000))).1)).1
     let s4 := complete s3
     s3.overallTask = some 0 ∧ s4.overallTask = some 0 ∧ s4.subtask = none ∧
       s4.overallCompleted = s3.overallCompleted ∧
       s4.overallTotal = s3.overallTotal ∧
       s4.subtaskCompleted = s3.subtaskCompleted ∧
       s4.subtaskTotal = s3.subtaskTotal) :=
  ⟨rfl, rfl, rfl, rfl, rfl, rfl, rfl⟩
